import Mathlib

/-!
Verification of the property_scout agent pipeline (backend/graph/nodes.py,
backend/graph/workflow.py, backend/tools/search_tool.py,
backend/tools/mongo_tool.py, backend/tools/currency_tool.py) against its
natural-language specification.

The Python code is shallowly embedded: pure helper functions become Lean
functions over `String`/`List`, database collections become explicit state
values threaded through the functions, and `datetime` values become `Nat`
timestamps in seconds.  Regular-expression scans that the claims depend on
(the `\$?([\d,]+)k?` price scan, the ordinal search-index patterns) are
implemented character-by-character with the same left-to-right first-match
semantics as Python's `re.search`.  Calls to external systems (the LLM, the
Tavily search API, the browser, Cloudinary) are modelled as explicit input
parameters carrying the values those systems returned.
-/

namespace PropertyScout

/-- Python's `s[-n:]` slice: the last `n` elements of a list (the whole list
when it is shorter than `n`). -/
def pyTakeLast (l : List α) (n : Nat) : List α :=
  l.drop (l.length - n)

/-- Lower-case a string character by character (Python `str.lower` on the
ASCII texts the code handles). -/
def pyLower (s : String) : String :=
  String.mk (s.data.map Char.toLower)

/-- Python's `\s` character class (the whitespace characters relevant to the
scanned texts). -/
def isSpaceChar (c : Char) : Bool :=
  c = ' ' || c = '\t' || c = '\n' || c = '\r'

/-- Python's `str.strip()`: remove leading and trailing whitespace. -/
def pyStrip (s : String) : String :=
  String.mk (((s.data.dropWhile isSpaceChar).reverse.dropWhile isSpaceChar).reverse)

/-- Substring containment on character lists (Python's `needle in hay`). -/
def listContainsSub (needle : List Char) : List Char → Bool
  | [] => needle.isEmpty
  | c :: rest => needle.isPrefixOf (c :: rest) || listContainsSub needle rest

/-- Substring containment on strings (Python's `needle in hay`). -/
def strContainsSub (hay needle : String) : Bool :=
  listContainsSub needle.toList hay.toList

/-- Numeric value of a list of decimal digit characters. -/
def natOfDigits (ds : List Char) : Nat :=
  ds.foldl (fun a c => a * 10 + (c.toNat - 48)) 0

/-! ## Criteria extraction — backend/graph/nodes.py

`_validate_criteria` re-derives `max_price` with
`re.search(r'\$?([\d,]+)k?', user_message)`.  For this pattern `re.search`
finds the leftmost position where either a digit-or-comma run starts, or a
`'$'` immediately followed by a digit or comma; the capture group is the
maximal digit/comma run at that position (the optional trailing `k` is
outside the group and does not affect it). -/

/-- Characters matched by the `[\d,]` class of the price pattern. -/
def isPriceChar (c : Char) : Bool :=
  c.isDigit || c = ','

/-- First match of `re.search(r'\$?([\d,]+)k?', s)`: the capture group of
the leftmost match, or `none` when the text has no digit or comma. -/
def findPriceGroup : List Char → Option (List Char)
  | [] => none
  | c :: rest =>
    if isPriceChar c then some ((c :: rest).takeWhile isPriceChar)
    else if c = '$' && (match rest with | r :: _ => isPriceChar r | [] => false) then
      some (rest.takeWhile isPriceChar)
    else
      findPriceGroup rest

/-- Python's `int(group.replace(',', ''))`: strip the commas and parse;
`none` models the `ValueError` raised when only commas remain. -/
def parsePriceGroup (g : List Char) : Option Nat :=
  let ds := g.filter (fun c => c ≠ ',')
  if ds.isEmpty then none else some (natOfDigits ds)

/-- Price scaling applied by both extractors: a bare number below 100 is
read as thousands. -/
def scalePrice (n : Nat) : Nat :=
  if n < 100 then n * 1000 else n

/-- Structured search criteria as produced by the extraction step
(`location`, `max_price`, `bedrooms`, `requirements`). -/
structure SearchCriteria where
  location : String
  max_price : Int
  bedrooms : String
  requirements : String
deriving DecidableEq

/-- Output of the generative extraction step before validation.  `none` in
`max_price` models a missing key or a value `int()` cannot convert (both
code paths end in the 2500 default). -/
structure RawCriteria where
  location : Option String
  max_price : Option Int
  bedrooms : Option String
  requirements : Option String
deriving DecidableEq

/-- Embedding of `_validate_criteria(raw, user_message)`.  The regex-derived
price overrides the generative one whenever the message contains a match;
`none` models the uncaught `ValueError` when the first `[\d,]+` group of the
message consists of commas only. -/
def validate_criteria (raw : RawCriteria) (user_message : String) : Option SearchCriteria :=
  match findPriceGroup user_message.toList with
  | some g =>
    match parsePriceGroup g with
    | some n =>
      some { location := raw.location.getD "Not specified",
             max_price := (scalePrice n : Nat),
             bedrooms := raw.bedrooms.getD "1",
             requirements := raw.requirements.getD "none" }
    | none => none
  | none =>
    some { location := raw.location.getD "Not specified",
           max_price := raw.max_price.getD 2500,
           bedrooms := raw.bedrooms.getD "1",
           requirements := raw.requirements.getD "none" }

/-! ## Listing retrieval — backend/tools/search_tool.py -/

/-- Keyword denylist of `_is_irrelevant_result`. -/
def irrelevantKeywords : List String :=
  ["emissions standards", "federal register", "epa ", "sec filing",
   "10-k ", "annual report", "privacy policy", "terms of service",
   "cookie policy", "wikipedia", "how to", "what is", "tutorial"]

/-- Domain denylist of `_is_irrelevant_result`. -/
def irrelevantDomains : List String :=
  ["federalregister.gov", "wikipedia.org", "irs.gov", "sec.gov"]

/-- Embedding of `_is_irrelevant_result(title, content, url)`. -/
def is_irrelevant_result (title content url : String) : Bool :=
  let combined := pyLower (title ++ " " ++ content)
  irrelevantKeywords.any (fun kw => strContainsSub combined kw) ||
    irrelevantDomains.any (fun d => strContainsSub (pyLower url) d)

/-- Embedding of `is_pet_friendly(content, query)`: a pet keyword in the
result content, or a pet word anywhere in the query. -/
def is_pet_friendly (content query : String) : Bool :=
  let kws := ["pet friendly", "pets allowed", "pet ok", "dogs allowed",
              "cats allowed", "pet-friendly"]
  kws.any (fun kw => strContainsSub (pyLower content) kw) ||
    ["pet", "dog", "cat"].any (fun w => strContainsSub (pyLower query) w)

/-- Python's `random.randint(a, b)`: some value in `[a, b]`, here driven by
an explicit seed; `none` models the `ValueError` raised when `a > b`. -/
def pyRandint (a b seed : Nat) : Option Nat :=
  if a ≤ b then some (a + seed % (b - a + 1)) else none

/-- Embedding of `extract_real_price(content, title, query, max_price)`.
`priceMatches` carries the integer values of the `re.findall` captures over
content then title, in pattern order (every capture of those patterns is a
digit group with an optional comma, so the `int()` conversion never fails).
The first value inside the 400–15000 sanity window is capped with `min`;
otherwise a price is synthesized between `int(max_price*0.60)` (here the
exact rational floor — float rounding can differ by at most one and no claim
depends on it) and `max_price`, floored to a multiple of 50. -/
def extract_real_price (priceMatches : List Nat) (max_price : Nat) (seed : Nat) : Option Nat :=
  match priceMatches.find? (fun p => 400 ≤ p && p ≤ 15000) with
  | some p => some (min p max_price)
  | none =>
    let lowBound := max 400 (max_price * 60 / 100)
    (pyRandint lowBound max_price seed).map (fun r => r / 50 * 50)

/-- One raw Tavily result together with the values that the per-result
extraction helpers derived from it.  `priceMatches` abstracts the price
regex captures (see `extract_real_price`); `cleanedTitle`, `address`,
`description`, `bedrooms` and `bathrooms` carry the outputs of
`clean_title`, `extract_real_address`, `extract_description`,
`extract_bedrooms_from_content` and `extract_bathrooms`, whose regex/LLM
internals no claim depends on. -/
structure RawSearchResult where
  title : String
  content : String
  url : String
  priceMatches : List Nat
  priceSeed : Nat
  cleanedTitle : String
  address : String
  description : String
  bedrooms : Nat
  bathrooms : Nat
deriving DecidableEq

/-- A property candidate as built by `search_properties`. -/
structure PropertyCandidate where
  id : Nat
  title : String
  price : Nat
  address : String
  description : String
  bedrooms : Nat
  bathrooms : Nat
  pet_friendly : Bool
  url : String
deriving DecidableEq

/-- The enumerated result loop of `search_properties`: denylisted results
are skipped (their enumeration index still advances), every kept result gets
a price from `extract_real_price`; a `ValueError` inside the loop aborts the
whole search (`none`). -/
def buildCandidates (max_price : Nat) (query : String) : Nat → List RawSearchResult → Option (List PropertyCandidate)
  | _, [] => some []
  | idx, r :: rest =>
    if is_irrelevant_result r.title r.content r.url then
      buildCandidates max_price query (idx + 1) rest
    else
      match extract_real_price r.priceMatches max_price r.priceSeed with
      | none => none
      | some price =>
        (buildCandidates max_price query (idx + 1) rest).map (fun tl =>
          { id := idx + 1,
            title := r.cleanedTitle,
            price := price,
            address := r.address,
            description := r.description,
            bedrooms := r.bedrooms,
            bathrooms := r.bathrooms,
            pet_friendly := is_pet_friendly r.content query,
            url := r.url } :: tl)

/-- Embedding of `search_properties(query, max_price, max_results)` applied
to the raw results the Tavily client returned: build the candidate list,
then truncate it to `max_results`. -/
def search_properties (results : List RawSearchResult) (query : String) (max_price : Nat) (max_results : Nat) : Option (List PropertyCandidate) :=
  (buildCandidates max_price query 0 results).map (fun props => props.take max_results)

/-! ## Persistence — backend/tools/mongo_tool.py

Collections become explicit values: the search cache is an association list
keyed by the normalized criteria (md5 of the canonical JSON of the
normalization is deterministic and injective on it, so hash equality is
modelled as equality of the normalized criteria), and the per-user
conversation-memory document is an `Option MemoryDoc`. -/

/-- Normalized criteria used by `_generate_search_hash`. -/
structure NormalizedCriteria where
  location : String
  bedrooms : String
  max_price : Int
  requirements : String
deriving DecidableEq

/-- Embedding of the normalization inside `_generate_search_hash`:
location and requirements lower-cased and stripped, bedrooms as a string,
max_price as an integer. -/
def generate_search_hash (c : SearchCriteria) : NormalizedCriteria :=
  { location := pyStrip (pyLower c.location),
    bedrooms := c.bedrooms,
    max_price := c.max_price,
    requirements := pyStrip (pyLower c.requirements) }

/-- One `search_cache` document. -/
structure CacheEntry where
  criteria : SearchCriteria
  properties : List PropertyCandidate
  created_at : Nat
  search_count : Nat
deriving DecidableEq

/-- The `search_cache` collection, keyed by the criteria hash. -/
def CacheStore : Type :=
  List (NormalizedCriteria × CacheEntry)

/-- Lookup of the cache document for a criteria hash
(`search_cache.find_one({"search_hash": ...})`). -/
def cacheFind (store : CacheStore) (key : NormalizedCriteria) : Option CacheEntry :=
  (store.find? (fun e => e.1 = key)).map (fun e => e.2)

/-- Seconds in the 24-hour freshness window (`timedelta(hours=24)`). -/
def cacheTTL : Nat := 24 * 3600

/-- Embedding of `get_cached_search(criteria, max_results)` at time `now`
(seconds): `none` when there is no entry, the entry is older than 24 hours,
or it stores fewer candidates than requested; otherwise the first
`max_results` stored candidates. -/
def get_cached_search (store : CacheStore) (criteria : SearchCriteria) (max_results : Nat) (now : Nat) : Option (List PropertyCandidate) :=
  match cacheFind store (generate_search_hash criteria) with
  | none => none
  | some entry =>
    if now - entry.created_at > cacheTTL then none
    else if entry.properties.length ≥ max_results then
      some (entry.properties.take max_results)
    else none

/-- Embedding of `save_search_cache(criteria, properties)`: upsert keyed by
the criteria hash, replacing stored results and timestamp (the `$set` writes
`search_count = 1` and the follow-up `$inc` always leaves it at 2). -/
def save_search_cache (store : CacheStore) (criteria : SearchCriteria) (properties : List PropertyCandidate) (now : Nat) : CacheStore :=
  let key := generate_search_hash criteria
  let entry : CacheEntry :=
    { criteria := criteria, properties := properties, created_at := now, search_count := 2 }
  if (store.find? (fun e => e.1 = key)).isSome then
    store.map (fun e => if e.1 = key then (key, entry) else e)
  else
    (key, entry) :: store

/-- One completed-search record as stored in conversation memory
(`last_query`, criteria, currency, result count; `searched_at` is attached
when the record is moved into the history). -/
structure SearchRecord where
  last_query : String
  criteria : SearchCriteria
  currency_code : String
  currency_symbol : String
  property_count : Nat
  searched_at : Option Nat
deriving DecidableEq

/-- A per-user `conversation_memory` document. -/
structure MemoryDoc where
  last_search : SearchRecord
  search_history : List SearchRecord
  updated_at : Nat
  total_searches : Nat
deriving DecidableEq

/-- The previous `last_search` as it is appended to the history: the same
record stamped with the document's `updated_at`. -/
def movedLastSearch (doc : MemoryDoc) : SearchRecord :=
  { doc.last_search with searched_at := some doc.updated_at }

/-- Embedding of `save_conversation_memory(user_id, memory)` at time `now`:
on an existing document the current `last_search` is appended to the history
(stamped with `updated_at`), the history is cut to its last 10 entries, and
`last_search` is replaced; on a fresh user a document with empty history is
inserted. -/
def save_conversation_memory (existing : Option MemoryDoc) (memory : SearchRecord) (now : Nat) : MemoryDoc :=
  match existing with
  | some doc =>
    { last_search := memory,
      search_history := pyTakeLast (doc.search_history ++ [movedLastSearch doc]) 10,
      updated_at := now,
      total_searches := doc.total_searches + 1 }
  | none =>
    { last_search := memory,
      search_history := [],
      updated_at := now,
      total_searches := 1 }

/-- Embedding of `get_search_by_index(user_id, index)`: index 0 is the first
history entry, -1 the current `last_search`, and a positive index is read as
1-based into the history. -/
def get_search_by_index (memory : Option MemoryDoc) (index : Int) : Option SearchRecord :=
  match memory with
  | none => none
  | some doc =>
    let history := doc.search_history
    if index = 0 ∧ history ≠ [] then history.head?
    else if index = -1 then some doc.last_search
    else if 0 < index ∧ index ≤ (history.length : Int) then history.get? (index - 1).toNat
    else none

/-! ## Orchestration — backend/graph/workflow.py -/

/-- Match of `r'(\d+)(?:st|nd|rd|th)\s+search'` anchored at the start of
`l`: a maximal digit run, an ordinal suffix, whitespace, then `search`. -/
def matchOrdinalAt (l : List Char) : Option Nat :=
  let ds := l.takeWhile Char.isDigit
  if ds.isEmpty then none
  else
    let rest := l.drop ds.length
    let suffixOk := ("st".toList.isPrefixOf rest) || ("nd".toList.isPrefixOf rest) ||
                    ("rd".toList.isPrefixOf rest) || ("th".toList.isPrefixOf rest)
    if suffixOk then
      let rest2 := rest.drop 2
      let ws := rest2.takeWhile isSpaceChar
      if ws.isEmpty then none
      else if "search".toList.isPrefixOf (rest2.drop ws.length) then some (natOfDigits ds)
      else none
    else none

/-- First match of `re.search(r'(\d+)(?:st|nd|rd|th)\s+search', q)`. -/
def scanOrdinalSearch : List Char → Option Nat
  | [] => none
  | c :: rest =>
    match matchOrdinalAt (c :: rest) with
    | some n => some n
    | none => scanOrdinalSearch rest

/-- Match of `r'search\s+(?:number\s+)?(\d+)'` anchored at the start of `l`:
the literal `search`, whitespace, an optional `number` plus whitespace, then
a digit run (the optional part backtracks exactly like the regex). -/
def matchSearchNumberAt (l : List Char) : Option Nat :=
  if "search".toList.isPrefixOf l then
    let r := l.drop 6
    let ws := r.takeWhile isSpaceChar
    if ws.isEmpty then none
    else
      let r2 := r.drop ws.length
      let withNumber :=
        if "number".toList.isPrefixOf r2 then
          let r3 := r2.drop 6
          let ws2 := r3.takeWhile isSpaceChar
          if ws2.isEmpty then none
          else
            let ds := (r3.drop ws2.length).takeWhile Char.isDigit
            if ds.isEmpty then none else some (natOfDigits ds)
        else none
      match withNumber with
      | some n => some n
      | none =>
        let ds := r2.takeWhile Char.isDigit
        if ds.isEmpty then none else some (natOfDigits ds)
  else none

/-- First match of `re.search(r'search\s+(?:number\s+)?(\d+)', q)`. -/
def scanSearchNumber : List Char → Option Nat
  | [] => none
  | c :: rest =>
    match matchSearchNumberAt (c :: rest) with
    | some n => some n
    | none => scanSearchNumber rest

/-- Embedding of `extract_search_index_from_query(query)`; `none` is the
`(False, None)` result.  `last`/`latest`/`recent`/`previous` give -1,
`first` gives 0, and both numbered forms give the number minus one. -/
def extract_search_index_from_query (query : String) : Option Int :=
  let q := pyLower query
  if ["last", "latest", "recent", "previous"].any (fun w => strContainsSub q w) then some (-1)
  else if strContainsSub q "first" then some 0
  else
    match scanOrdinalSearch q.toList with
    | some n => some ((n : Int) - 1)
    | none =>
      match scanSearchNumber q.toList with
      | some n => some ((n : Int) - 1)
      | none => none

/-- The history-lookup path of `run_agent` (step 3): when the message names
a search index, answer it from `get_search_by_index`. -/
def run_agent_history_lookup (query : String) (memory : Option MemoryDoc) : Option (Option SearchRecord) :=
  (extract_search_index_from_query query).map (fun i => get_search_by_index memory i)

/-- A currency value as used by `detect_currency` and the
`user_currencies` collection. -/
structure Currency where
  code : String
  symbol : String
deriving DecidableEq

/-- Outcome of the currency step of `run_agent`: the currency used for the
turn and the value written to `save_user_currency` (if any). -/
structure CurrencyDecision where
  used : Currency
  persisted : Option Currency
deriving DecidableEq

/-- Embedding of `run_agent` step 6 (currency detection and persistence):
the detected currency is adopted and persisted when
`detected.code != "USD" or detected.code != saved.code`; only otherwise is
the saved preference reused. -/
def run_agent_currency (saved detected : Currency) : CurrencyDecision :=
  if detected.code ≠ "USD" ∨ detected.code ≠ saved.code then
    { used := detected, persisted := some detected }
  else
    { used := saved, persisted := none }

/-- Default currency of `detect_currency` when the message names no
currency and no location implies one (currency_tool.py). -/
def defaultCurrency : Currency :=
  { code := "USD", symbol := "$" }

/-- The conversation-memory write decision at the end of `run_agent`:
memory is saved only when the returned property list is non-empty and the
result is not marked as from the cache. -/
def run_agent_memory_update (properties : List PropertyCandidate) (from_cache : Bool) (store : Option MemoryDoc) (memory : SearchRecord) (now : Nat) : Option MemoryDoc :=
  if properties ≠ [] ∧ from_cache = false then
    some (save_conversation_memory store memory now)
  else store

/-! ## Preference learning — crm_node in backend/graph/nodes.py -/

/-- The learned per-user preferences handled by `crm_node` (an absent
`has_pet` key behaves as `false`, absent lists as `[]`, an absent
`typical_budget` as `none`). -/
structure UserPreferences where
  has_pet : Bool
  preferred_locations : List String
  budget_history : List Int
  typical_budget : Option Int
  preferred_bedrooms : List String
deriving DecidableEq

/-- The `"Learn pet preferences"` block of `crm_node`: a pet word anywhere
in the message sets `has_pet` to true (and nothing ever unsets it). -/
def crm_learn_pet (prefs : UserPreferences) (last_message : String) : UserPreferences :=
  if ["dog", "cat", "pet"].any (fun w => strContainsSub (pyLower last_message) w) then
    { prefs with has_pet := true }
  else prefs

/-- The `"Learn location preferences"` block of `crm_node`: a truthy
location other than the `"Not specified"` sentinel is appended when not
already present. -/
def crm_learn_location (prefs : UserPreferences) (criteria : SearchCriteria) : UserPreferences :=
  if criteria.location ≠ "" ∧ criteria.location ≠ "Not specified" then
    if criteria.location ∈ prefs.preferred_locations then prefs
    else { prefs with preferred_locations := prefs.preferred_locations ++ [criteria.location] }
  else prefs

/-- The `"Learn budget range"` block of `crm_node`: a truthy `max_price` is
appended unconditionally, the history is cut to its last 5 entries when it
exceeds 5, and `typical_budget` becomes the floor-division average of the
resulting history. -/
def crm_learn_budget (prefs : UserPreferences) (criteria : SearchCriteria) : UserPreferences :=
  if criteria.max_price ≠ 0 then
    let bh0 := prefs.budget_history ++ [criteria.max_price]
    let bh := if bh0.length > 5 then pyTakeLast bh0 5 else bh0
    { prefs with budget_history := bh,
                 typical_budget := some (Int.fdiv bh.sum (bh.length : Int)) }
  else prefs

/-- The `"Learn bedroom preferences"` block of `crm_node`: a truthy bedroom
string is appended when not already present. -/
def crm_learn_bedrooms (prefs : UserPreferences) (criteria : SearchCriteria) : UserPreferences :=
  if criteria.bedrooms ≠ "" then
    if criteria.bedrooms ∈ prefs.preferred_bedrooms then prefs
    else { prefs with preferred_bedrooms := prefs.preferred_bedrooms ++ [criteria.bedrooms] }
  else prefs

/-- Embedding of the learning step of `crm_node` (Step 1), in the order the
four blocks run in the source. -/
def crm_learn (prefs : UserPreferences) (last_message : String) (criteria : SearchCriteria) : UserPreferences :=
  crm_learn_bedrooms (crm_learn_budget (crm_learn_location (crm_learn_pet prefs last_message) criteria) criteria) criteria

/-! ## Visual verification — inspector_node in backend/graph/nodes.py -/

/-- Outcome of processing one candidate in the inspector loop, covering
every exit of the loop body: the address field not found, the search button
not found, the screenshot not saved, a successful screenshot with a
successful or failed Cloudinary upload, or an exception. -/
inductive InspectOutcome where
  | typeFail : InspectOutcome
  | clickFail : InspectOutcome
  | shotFail : InspectOutcome
  | uploadOk : String → InspectOutcome
  | uploadFail : String → InspectOutcome
  | exn : InspectOutcome
deriving DecidableEq

/-- What one iteration of the inspector loop appends to `screenshots`:
`typeFail` and `clickFail` hit a bare `continue` and append nothing,
`shotFail` and an exception append `None`, a captured screenshot appends the
Cloudinary URL or the local path. -/
def inspectorAppends : InspectOutcome → List (Option String)
  | .typeFail => []
  | .clickFail => []
  | .shotFail => [none]
  | .uploadOk url => [some url]
  | .uploadFail path => [some path]
  | .exn => [none]

/-- The `screenshots` list produced by the inspector loop over one batch of
candidates, given each candidate's outcome. -/
def inspector_screenshots (outcomes : List InspectOutcome) : List (Option String) :=
  outcomes.flatMap inspectorAppends

/-! ## The search path of one request

`run_agent` (workflow.py) classifies the message, resolves the currency and
then runs the scout → inspector → broker → crm graph; afterwards it saves
conversation memory when properties were found and `from_cache` is unset.
`scout_node` (nodes.py) extracts criteria, derives the result count with
`extract_max_results` (passed in here as `wanted_count`; no claim depends on
its count parsing), calls `search_properties`, and filters for pet-friendly
candidates when the stored preferences say the user has a pet.  Neither
`run_agent` nor any graph node calls `get_cached_search` or
`save_search_cache`, and nothing ever writes the `from_cache` state key, so
the model records the search cache as an explicit — and unread — input, an
always-true `retrieval_invoked` flag, and an always-false `from_cache`
flag. -/

/-- Outcome of the search path of one request. -/
structure SearchPathRun where
  properties : List PropertyCandidate
  search_criteria : SearchCriteria
  retrieval_invoked : Bool
  from_cache : Bool
  memory_after : Option MemoryDoc
deriving DecidableEq

/-- Embedding of the search path: criteria extraction (`none` propagates the
uncaught `ValueError` of both extractors), the query built by `scout_node`,
retrieval via `search_properties` (`none` propagates a search failure), the
pet filter, and the conversation-memory write decision.  `cache` mirrors the
`search_cache` collection available to the code; no branch reads it. -/
def run_search_path (cache : CacheStore) (user_message : String) (raw : RawCriteria)
    (tavilyResults : List RawSearchResult) (wanted_count : Nat) (userHasPet : Bool)
    (memStore : Option MemoryDoc) (currency : Currency) (now : Nat) :
    Option SearchPathRun :=
  match validate_criteria raw user_message with
  | none => none
  | some criteria =>
    let query := criteria.bedrooms ++ " bedroom apartment in " ++ criteria.location
      ++ " under " ++ toString criteria.max_price
    match search_properties tavilyResults query criteria.max_price.toNat wanted_count with
    | none => none
    | some found =>
      let properties := if userHasPet then found.filter (fun p => p.pet_friendly) else found
      let memory : SearchRecord :=
        { last_query := user_message, criteria := criteria,
          currency_code := currency.code, currency_symbol := currency.symbol,
          property_count := properties.length, searched_at := none }
      some { properties := properties,
             search_criteria := criteria,
             retrieval_invoked := true,
             from_cache := false,
             memory_after := run_agent_memory_update properties false memStore memory now }

/-! ## Concrete example values used by the witness theorems -/

/-- Example criteria: a 2-bedroom Austin search with a 2000 ceiling. -/
def exCriteria : SearchCriteria :=
  { location := "Austin", max_price := 2000, bedrooms := "2", requirements := "none" }

/-- Example candidate `i` for the cache scenarios. -/
def exCandidate (i : Nat) : PropertyCandidate :=
  { id := i, title := "Rental Property Listing", price := 1500, address := "100 Main St, Austin",
    description := "d", bedrooms := 2, bathrooms := 1, pet_friendly := false, url := "u" }

/-- Example cache entry holding three candidates, created at time 1000. -/
def exCacheEntry : CacheEntry :=
  { criteria := exCriteria, properties := [exCandidate 1, exCandidate 2, exCandidate 3],
    created_at := 1000, search_count := 2 }

/-- Example cache store holding `exCacheEntry` under the hash of
`exCriteria`. -/
def exCacheStore : CacheStore :=
  [(generate_search_hash exCriteria, exCacheEntry)]

/-- Search record of the `i`-th example search. -/
def exSearchRecord (i : Nat) (stamp : Option Nat) : SearchRecord :=
  { last_query := "search " ++ toString i, criteria := exCriteria, currency_code := "USD",
    currency_symbol := "$", property_count := i, searched_at := stamp }

/-- Conversation-memory document after three completed searches: searches 1
and 2 in the history, search 3 as the current `last_search`. -/
def exMemoryDoc3 : MemoryDoc :=
  { last_search := exSearchRecord 3 none,
    search_history := [exSearchRecord 1 (some 10), exSearchRecord 2 (some 20)],
    updated_at := 30, total_searches := 3 }

/-- Conversation-memory document with one history entry, for the
memory-append witness. -/
def exMemoryDoc1 : MemoryDoc :=
  { last_search := exSearchRecord 2 none,
    search_history := [exSearchRecord 1 (some 10)],
    updated_at := 20, total_searches := 2 }

/-- Example stored preferences for the preference-learning witness. -/
def exPreferences : UserPreferences :=
  { has_pet := true, preferred_locations := ["Austin"], budget_history := [2000],
    typical_budget := some 2000, preferred_bedrooms := ["2"] }

/-! ## Shared lemmas -/

/-- Appending a fresh element keeps a list duplicate-free. -/
lemma nodup_append_single {α : Type} {l : List α} {x : α}
    (hx : x ∉ l) (hl : l.Nodup) : (l ++ [x]).Nodup := by
  simp [List.nodup_append, hl, hx]

/-- A Python `l[-n:]` slice never exceeds `n` elements. -/
lemma pyTakeLast_length_le (l : List α) (n : Nat) : (pyTakeLast l n).length ≤ n := by
  simp only [pyTakeLast, List.length_drop]
  omega

/-- A Python `l[-n:]` slice of a short list is the whole list. -/
lemma pyTakeLast_of_length_le {l : List α} {n : Nat} (h : l.length ≤ n) :
    pyTakeLast l n = l := by
  simp [pyTakeLast, Nat.sub_eq_zero_of_le h]

/-- Whatever `extract_real_price` returns respects the price ceiling. -/
lemma extract_real_price_le {ms : List Nat} {mp seed p : Nat}
    (h : extract_real_price ms mp seed = some p) : p ≤ mp := by
  unfold extract_real_price pyRandint at h
  cases hf : ms.find? (fun q => 400 ≤ q && q ≤ 15000) with
  | some q =>
    simp only [hf, Option.some.injEq] at h
    omega
  | none =>
    simp only [hf] at h
    by_cases hle : max 400 (mp * 60 / 100) ≤ mp
    · rw [if_pos hle] at h
      simp only [Option.map_some', Option.some.injEq] at h
      have hmod : seed % (mp - max 400 (mp * 60 / 100) + 1) ≤ mp - max 400 (mp * 60 / 100) :=
        Nat.le_of_lt_succ (Nat.mod_lt _ (Nat.succ_pos _))
      have hd := Nat.div_mul_le_self
        (max 400 (mp * 60 / 100) + seed % (mp - max 400 (mp * 60 / 100) + 1)) 50
      omega
    · rw [if_neg hle] at h
      simp at h

/-- Every candidate built by the retrieval loop respects the ceiling. -/
lemma buildCandidates_price_le {mp : Nat} {query : String} :
    ∀ {idx : Nat} {rs : List RawSearchResult} {props : List PropertyCandidate},
      buildCandidates mp query idx rs = some props →
      ∀ c ∈ props, c.price ≤ mp := by
  intro idx rs
  induction rs generalizing idx with
  | nil =>
    intro props h c hc
    simp only [buildCandidates, Option.some.injEq] at h
    subst h
    exact absurd hc (List.not_mem_nil c)
  | cons r rest ih =>
    intro props h c hc
    unfold buildCandidates at h
    by_cases hirr : is_irrelevant_result r.title r.content r.url
    · rw [if_pos hirr] at h
      exact ih h c hc
    · rw [if_neg hirr] at h
      cases hp : extract_real_price r.priceMatches mp r.priceSeed with
      | none => rw [hp] at h; simp at h
      | some price =>
        rw [hp] at h
        cases ht : buildCandidates mp query (idx + 1) rest with
        | none => rw [ht] at h; simp at h
        | some tl =>
          rw [ht] at h
          simp only [Option.map_some', Option.some.injEq] at h
          subst h
          rcases List.mem_cons.mp hc with hhead | htail
          · subst hhead
            exact extract_real_price_le hp
          · exact ih ht c htail

/-- The pet block only ever writes `has_pet`. -/
lemma crm_learn_pet_fields (p : UserPreferences) (m : String) :
    (crm_learn_pet p m).preferred_locations = p.preferred_locations
    ∧ (crm_learn_pet p m).budget_history = p.budget_history
    ∧ (crm_learn_pet p m).typical_budget = p.typical_budget
    ∧ (crm_learn_pet p m).preferred_bedrooms = p.preferred_bedrooms := by
  unfold crm_learn_pet
  split <;> exact ⟨rfl, rfl, rfl, rfl⟩

/-- The pet block turns `has_pet` on and never off. -/
lemma crm_learn_pet_has_pet (p : UserPreferences) (m : String) :
    (crm_learn_pet p m).has_pet
      = (p.has_pet || ["dog", "cat", "pet"].any (fun w => strContainsSub (pyLower m) w)) := by
  unfold crm_learn_pet
  split <;> simp_all

/-- The location block only ever writes `preferred_locations`. -/
lemma crm_learn_location_fields (p : UserPreferences) (c : SearchCriteria) :
    (crm_learn_location p c).has_pet = p.has_pet
    ∧ (crm_learn_location p c).budget_history = p.budget_history
    ∧ (crm_learn_location p c).typical_budget = p.typical_budget
    ∧ (crm_learn_location p c).preferred_bedrooms = p.preferred_bedrooms := by
  unfold crm_learn_location
  split
  · split <;> exact ⟨rfl, rfl, rfl, rfl⟩
  · exact ⟨rfl, rfl, rfl, rfl⟩

/-- The location list is unchanged or extended by the novel location. -/
lemma crm_learn_location_spec (p : UserPreferences) (c : SearchCriteria) :
    (crm_learn_location p c).preferred_locations = p.preferred_locations
    ∨ (c.location ∉ p.preferred_locations
        ∧ (crm_learn_location p c).preferred_locations
            = p.preferred_locations ++ [c.location]) := by
  unfold crm_learn_location
  split
  · split
    · exact Or.inl rfl
    · rename_i hmem
      exact Or.inr ⟨hmem, rfl⟩
  · exact Or.inl rfl

/-- The budget block only ever writes the budget fields. -/
lemma crm_learn_budget_fields (p : UserPreferences) (c : SearchCriteria) :
    (crm_learn_budget p c).has_pet = p.has_pet
    ∧ (crm_learn_budget p c).preferred_locations = p.preferred_locations
    ∧ (crm_learn_budget p c).preferred_bedrooms = p.preferred_bedrooms := by
  unfold crm_learn_budget
  split <;> exact ⟨rfl, rfl, rfl⟩

/-- With a truthy `max_price` the budget block appends it, keeps the last 5
entries, and recomputes the average over exactly the stored history. -/
lemma crm_learn_budget_spec (p : UserPreferences) (c : SearchCriteria)
    (hmp : c.max_price ≠ 0) :
    (crm_learn_budget p c).budget_history = pyTakeLast (p.budget_history ++ [c.max_price]) 5
    ∧ (crm_learn_budget p c).typical_budget
        = some (Int.fdiv (crm_learn_budget p c).budget_history.sum
            ((crm_learn_budget p c).budget_history.length : Int)) := by
  unfold crm_learn_budget
  rw [if_pos hmp]
  dsimp only
  by_cases hlen : (p.budget_history ++ [c.max_price]).length > 5
  · rw [if_pos hlen]
    exact ⟨rfl, rfl⟩
  · rw [if_neg hlen]
    refine ⟨?_, rfl⟩
    rw [pyTakeLast_of_length_le (by omega)]

/-- The bedrooms block only ever writes `preferred_bedrooms`. -/
lemma crm_learn_bedrooms_fields (p : UserPreferences) (c : SearchCriteria) :
    (crm_learn_bedrooms p c).has_pet = p.has_pet
    ∧ (crm_learn_bedrooms p c).preferred_locations = p.preferred_locations
    ∧ (crm_learn_bedrooms p c).budget_history = p.budget_history
    ∧ (crm_learn_bedrooms p c).typical_budget = p.typical_budget := by
  unfold crm_learn_bedrooms
  split
  · split <;> exact ⟨rfl, rfl, rfl, rfl⟩
  · exact ⟨rfl, rfl, rfl, rfl⟩

/-- The bedrooms list is unchanged or extended by the novel entry. -/
lemma crm_learn_bedrooms_spec (p : UserPreferences) (c : SearchCriteria) :
    (crm_learn_bedrooms p c).preferred_bedrooms = p.preferred_bedrooms
    ∨ (c.bedrooms ∉ p.preferred_bedrooms
        ∧ (crm_learn_bedrooms p c).preferred_bedrooms
            = p.preferred_bedrooms ++ [c.bedrooms]) := by
  unfold crm_learn_bedrooms
  split
  · split
    · exact Or.inl rfl
    · rename_i hmem
      exact Or.inr ⟨hmem, rfl⟩
  · exact Or.inl rfl

/-! ## Claim theorems -/

/-- C1 — counterexample.  The claim predicts `max_price = 1500` for the
message `"3 bedroom apartment in Austin under $1500"` (the literal of its
`$N` token, even when the generative step already proposed 1500), but the
regex re-derivation grabs the first digit group of the message — the bedroom
count 3 — and scales it to 3000. -/
theorem C1_counterexample :
    (validate_criteria ⟨some "Austin", some 1500, some "3", some "none"⟩
        "3 bedroom apartment in Austin under $1500").map (fun c => c.max_price)
      = some 3000 ∧ (3000 : Int) ≠ 1500 := by
  constructor
  · decide
  · decide

/-- C1 — amended claim.  The regex re-derivation always overrides the
generative value: whenever the message contains a digit-or-comma group (the
`$N`/`Nk` price token being one source of such a group), `max_price` is the
integer of the first such group, multiplied by 1000 when below 100,
regardless of what the generative extraction proposed; it equals the price
token's literal exactly when that token provides the message's first digit
group. -/
theorem C1_first_group_overrides (raw : RawCriteria) (msg : String)
    (g : List Char) (n : Nat)
    (hg : findPriceGroup msg.toList = some g) (hn : parsePriceGroup g = some n) :
    (validate_criteria raw msg).map (fun c => c.max_price) = some ((scalePrice n : Nat) : Int) := by
  have hg2 : findPriceGroup msg.data = some g := hg
  simp [validate_criteria, hg2, hn]

/-- C1 — witness: on `"apartment in Austin under $1500"` the price token is
the first digit group, so every generative proposal is overridden by 1500. -/
theorem C1_first_group_overrides_witness :
    (validate_criteria ⟨some "Austin", some 999, some "2", some "none"⟩
        "apartment in Austin under $1500").map (fun c => c.max_price) = some 1500 :=
  C1_first_group_overrides ⟨some "Austin", some 999, some "2", some "none"⟩
    "apartment in Austin under $1500" ['1', '5', '0', '0'] 1500 (by decide) (by decide)

/-- C2 — every candidate returned by `search_properties` has a price at most
the requested `max_price`: an extracted price is capped with `min` rather
than discarded for exceeding the budget, and a synthesized price is drawn
from a range bounded by `max_price` and only rounded downwards. -/
theorem C2_price_le_max_price (results : List RawSearchResult) (query : String)
    (mp k : Nat) (props : List PropertyCandidate) (c : PropertyCandidate)
    (hs : search_properties results query mp k = some props) (hc : c ∈ props) :
    c.price ≤ mp := by
  unfold search_properties at hs
  cases hb : buildCandidates mp query 0 results with
  | none => rw [hb] at hs; simp at hs
  | some all =>
    rw [hb] at hs
    simp only [Option.map_some', Option.some.injEq] at hs
    subst hs
    exact buildCandidates_price_le hb c (List.mem_of_mem_take hc)

/-- C2 — witness: a single raw result whose content quotes 5000 against a
2000 budget yields one candidate priced exactly at the 2000 cap. -/
theorem C2_price_le_max_price_witness :
    ({ id := 1, title := "T", price := 2000, address := "A", description := "D",
       bedrooms := 2, bathrooms := 1, pet_friendly := false,
       url := "u" } : PropertyCandidate).price ≤ 2000 :=
  C2_price_le_max_price
    [{ title := "t", content := "c", url := "u", priceMatches := [5000], priceSeed := 0,
       cleanedTitle := "T", address := "A", description := "D", bedrooms := 2, bathrooms := 1 }]
    "q" 2000 5
    [{ id := 1, title := "T", price := 2000, address := "A", description := "D",
       bedrooms := 2, bathrooms := 1, pet_friendly := false, url := "u" }]
    { id := 1, title := "T", price := 2000, address := "A", description := "D",
      bedrooms := 2, bathrooms := 1, pet_friendly := false, url := "u" }
    (by decide) (by decide)

/-- C3 — divergence.  The search path never reads the search cache: its
outcome is identical for any two cache contents (in particular for a cache
that `save_search_cache` just filled with candidates for the same
normalized criteria), retrieval is invoked on every run, and `from_cache`
is false on every run (so conversation memory is written again whenever
properties are found). -/
theorem C3_pipeline_ignores_cache (cache cache2 : CacheStore) (msg : String)
    (raw : RawCriteria) (tavily : List RawSearchResult) (wanted : Nat) (hasPet : Bool)
    (mem : Option MemoryDoc) (cur : Currency) (now : Nat) :
    run_search_path cache msg raw tavily wanted hasPet mem cur now
      = run_search_path cache2 msg raw tavily wanted hasPet mem cur now
    ∧ (run_search_path cache msg raw tavily wanted hasPet mem cur now).map
        (fun r => (r.from_cache, r.retrieval_invoked))
      = (run_search_path cache msg raw tavily wanted hasPet mem cur now).map
        (fun _ => (false, true)) := by
  constructor
  · rfl
  · unfold run_search_path
    cases validate_criteria raw msg with
    | none => rfl
    | some criteria =>
      dsimp only
      cases search_properties tavily
          (criteria.bedrooms ++ " bedroom apartment in " ++ criteria.location
            ++ " under " ++ toString criteria.max_price)
          criteria.max_price.toNat wanted with
      | none => rfl
      | some found => rfl

/-- Normal form of `get_cached_search`: the two miss checks on an existing
entry collapse into one conjunction. -/
lemma get_cached_search_eq (store : CacheStore) (criteria : SearchCriteria)
    (k : Nat) (now : Nat) :
    get_cached_search store criteria k now =
      match cacheFind store (generate_search_hash criteria) with
      | none => none
      | some e =>
        if now - e.created_at ≤ cacheTTL ∧ k ≤ e.properties.length
        then some (e.properties.take k) else none := by
  unfold get_cached_search
  cases cacheFind store (generate_search_hash criteria) with
  | none => rfl
  | some e =>
    dsimp only
    by_cases hage : now - e.created_at > cacheTTL
    · rw [if_pos hage, if_neg (by omega)]
    · rw [if_neg hage]
      by_cases hlen : e.properties.length ≥ k
      · rw [if_pos hlen, if_pos (by omega)]
      · rw [if_neg hlen, if_neg (by omega)]

/-- C4 — a cache read misses exactly when there is no entry for the
normalized-criteria hash, the entry is older than 24 hours, or it stores
fewer candidates than requested; in every other case it hits and returns
the first `max_results` stored candidates. -/
theorem C4_cache_read_characterization (store : CacheStore) (criteria : SearchCriteria)
    (k : Nat) (now : Nat) :
    (get_cached_search store criteria k now = none ↔
      cacheFind store (generate_search_hash criteria) = none ∨
        ∃ e, cacheFind store (generate_search_hash criteria) = some e ∧
          (now - e.created_at > cacheTTL ∨ e.properties.length < k))
    ∧ ∀ e, cacheFind store (generate_search_hash criteria) = some e →
        now - e.created_at ≤ cacheTTL → k ≤ e.properties.length →
        get_cached_search store criteria k now = some (e.properties.take k) := by
  constructor
  · rw [get_cached_search_eq]
    cases hf : cacheFind store (generate_search_hash criteria) with
    | none => simp
    | some e =>
      dsimp only
      by_cases h : now - e.created_at ≤ cacheTTL ∧ k ≤ e.properties.length
      · rw [if_pos h]
        simp only [Option.some.injEq, reduceCtorEq, false_iff]
        push_neg
        refine ⟨by simp, ?_⟩
        intro e2 he2
        subst he2
        omega
      · rw [if_neg h]
        simp only [true_iff]
        right
        exact ⟨e, rfl, by omega⟩
  · intro e hf hage hlen
    rw [get_cached_search_eq, hf]
    dsimp only
    rw [if_pos ⟨hage, hlen⟩]

/-- C4 — witness: a 2-result request against a fresh entry storing three
candidates hits and returns the first two. -/
theorem C4_cache_read_witness :
    get_cached_search exCacheStore exCriteria 2 5000
      = some [exCandidate 1, exCandidate 2] :=
  (C4_cache_read_characterization exCacheStore exCriteria 2 5000).2 exCacheEntry
    (by decide) (by decide) (by decide)

/-- C5 — divergence.  After three completed searches, `"my first search"`
and `"my last search"` resolve as the claim states and the history length is
2, but a positive index query is decremented twice — once by
`extract_search_index_from_query` (to 0-based) and once by
`get_search_by_index` (which reads positive indices as 1-based) — so
`"my 2nd search"` returns search #1's record instead of search #2's. -/
theorem C5_index_lookup_divergence :
    extract_search_index_from_query "my first search" = some 0
    ∧ get_search_by_index (some exMemoryDoc3) 0 = some (exSearchRecord 1 (some 10))
    ∧ extract_search_index_from_query "my last search" = some (-1)
    ∧ get_search_by_index (some exMemoryDoc3) (-1) = some (exSearchRecord 3 none)
    ∧ exMemoryDoc3.search_history.length = 2
    ∧ extract_search_index_from_query "my 2nd search" = some 1
    ∧ get_search_by_index (some exMemoryDoc3) 1 = some (exSearchRecord 1 (some 10))
    ∧ exSearchRecord 1 (some 10) ≠ exSearchRecord 2 (some 20) := by
  decide

/-- C6 — divergence.  With a stored `EUR` preference and a message naming no
currency (so detection falls back to `USD`), `run_agent` persists `USD` as
the new preference and uses it for the turn, because its guard is the
disjunction `detected.code != "USD" or detected.code != saved.code` instead
of the conjunction the claim states; the stored explicit choice is not
sticky. -/
theorem C6_saved_currency_overwritten :
    run_agent_currency { code := "EUR", symbol := "€" } defaultCurrency
      = { used := defaultCurrency, persisted := some defaultCurrency }
    ∧ (run_agent_currency { code := "EUR", symbol := "€" } defaultCurrency).used
        ≠ { code := "EUR", symbol := "€" }
    ∧ (run_agent_currency { code := "EUR", symbol := "€" } defaultCurrency).persisted
        ≠ none := by
  decide

/-- C7 — on each write to an existing conversation-memory document the
previous `last_search` is appended (time-stamped) to `search_history` before
`last_search` is replaced, the history is capped at its last 10 entries with
the oldest evicted first, and while the history is below the cap no record
is dropped. -/
theorem C7_history_append (doc : MemoryDoc) (memory : SearchRecord) (now : Nat) :
    (save_conversation_memory (some doc) memory now).last_search = memory
    ∧ (save_conversation_memory (some doc) memory now).search_history
        = pyTakeLast (doc.search_history ++ [movedLastSearch doc]) 10
    ∧ (save_conversation_memory (some doc) memory now).search_history.length ≤ 10
    ∧ (doc.search_history.length < 10 →
        (save_conversation_memory (some doc) memory now).search_history
          = doc.search_history ++ [movedLastSearch doc]) := by
  refine ⟨rfl, rfl, pyTakeLast_length_le _ 10, ?_⟩
  intro h
  show pyTakeLast (doc.search_history ++ [movedLastSearch doc]) 10
    = doc.search_history ++ [movedLastSearch doc]
  apply pyTakeLast_of_length_le
  simp only [List.length_append, List.length_singleton]
  omega

/-- C7 — witness: with one prior history entry the write appends the old
`last_search` and loses nothing. -/
theorem C7_history_append_witness :
    (save_conversation_memory (some exMemoryDoc1) (exSearchRecord 3 none) 30).last_search
      = exSearchRecord 3 none
    ∧ (save_conversation_memory (some exMemoryDoc1) (exSearchRecord 3 none) 30).search_history
        = exMemoryDoc1.search_history ++ [movedLastSearch exMemoryDoc1] :=
  ⟨(C7_history_append exMemoryDoc1 (exSearchRecord 3 none) 30).1,
   (C7_history_append exMemoryDoc1 (exSearchRecord 3 none) 30).2.2.2 (by decide)⟩

/-- C8 — the preference-learning step of `crm_node` preserves the stored
preference invariants: `has_pet` stays true once true, the location and
bedroom lists stay duplicate-free and are at most extended by the turn's
novel value, the budget history becomes exactly the last 5 entries of the
old history plus the turn's budget (appended unconditionally, so an
identical repeated search appends the same value again), and
`typical_budget` is the floor-average of the stored budget history. -/
theorem C8_preference_invariants (p : UserPreferences) (msg : String) (crit : SearchCriteria)
    (hpet : p.has_pet = true) (hnl : p.preferred_locations.Nodup)
    (hnb : p.preferred_bedrooms.Nodup) (hmp : crit.max_price ≠ 0) :
    (crm_learn p msg crit).has_pet = true
    ∧ (crm_learn p msg crit).preferred_locations.Nodup
    ∧ (crm_learn p msg crit).preferred_bedrooms.Nodup
    ∧ ((crm_learn p msg crit).preferred_locations = p.preferred_locations
        ∨ (crm_learn p msg crit).preferred_locations
            = p.preferred_locations ++ [crit.location])
    ∧ ((crm_learn p msg crit).preferred_bedrooms = p.preferred_bedrooms
        ∨ (crm_learn p msg crit).preferred_bedrooms
            = p.preferred_bedrooms ++ [crit.bedrooms])
    ∧ (crm_learn p msg crit).budget_history
        = pyTakeLast (p.budget_history ++ [crit.max_price]) 5
    ∧ (crm_learn p msg crit).budget_history.length ≤ 5
    ∧ (crm_learn p msg crit).typical_budget
        = some (Int.fdiv (crm_learn p msg crit).budget_history.sum
            ((crm_learn p msg crit).budget_history.length : Int)) := by
  have h1 := crm_learn_pet_fields p msg
  have h2 := crm_learn_location_fields (crm_learn_pet p msg) crit
  have h3 := crm_learn_budget_fields (crm_learn_location (crm_learn_pet p msg) crit) crit
  have h4 := crm_learn_bedrooms_fields
    (crm_learn_budget (crm_learn_location (crm_learn_pet p msg) crit) crit) crit
  have hb := crm_learn_budget_spec (crm_learn_location (crm_learn_pet p msg) crit) crit hmp
  have hloc := crm_learn_location_spec (crm_learn_pet p msg) crit
  have hbed := crm_learn_bedrooms_spec
    (crm_learn_budget (crm_learn_location (crm_learn_pet p msg) crit) crit) crit
  have hpet2 := crm_learn_pet_has_pet p msg
  unfold crm_learn
  refine ⟨?_, ?_, ?_, ?_, ?_, ?_, ?_, ?_⟩
  · rw [h4.1, h3.1, h2.1, hpet2, hpet]
    simp
  · rw [h4.2.1, h3.2.1]
    rcases hloc with hsame | ⟨hnotmem, happ⟩
    · rw [hsame, h1.1]
      exact hnl
    · rw [happ, h1.1]
      rw [h1.1] at hnotmem
      exact nodup_append_single hnotmem hnl
  · rcases hbed with hsame | ⟨hnotmem, happ⟩
    · rw [hsame, h3.2.2, h2.2.2.2, h1.2.2.2]
      exact hnb
    · rw [happ, h3.2.2, h2.2.2.2, h1.2.2.2]
      rw [h3.2.2, h2.2.2.2, h1.2.2.2] at hnotmem
      exact nodup_append_single hnotmem hnb
  · rw [h4.2.1, h3.2.1]
    rcases hloc with hsame | ⟨hnotmem, happ⟩
    · rw [hsame, h1.1]
      exact Or.inl rfl
    · rw [happ, h1.1]
      exact Or.inr rfl
  · rcases hbed with hsame | ⟨hnotmem, happ⟩
    · rw [hsame, h3.2.2, h2.2.2.2, h1.2.2.2]
      exact Or.inl rfl
    · rw [happ, h3.2.2, h2.2.2.2, h1.2.2.2]
      exact Or.inr rfl
  · rw [h4.2.2.1, hb.1, h2.2.1, h1.2.1]
  · rw [h4.2.2.1, hb.1]
    exact pyTakeLast_length_le _ 5
  · rw [h4.2.2.2, h4.2.2.1, hb.2]

/-- C8 — witness: repeating the identical Austin search against already
learned preferences keeps the invariants, appends the budget again and does
not duplicate the location or bedroom entries. -/
theorem C8_preference_invariants_witness :
    (crm_learn exPreferences "2 bedroom apartment in Austin under $2000 pet friendly"
        exCriteria).has_pet = true
    ∧ (crm_learn exPreferences "2 bedroom apartment in Austin under $2000 pet friendly"
        exCriteria).preferred_locations.Nodup
    ∧ (crm_learn exPreferences "2 bedroom apartment in Austin under $2000 pet friendly"
        exCriteria).preferred_bedrooms.Nodup
    ∧ ((crm_learn exPreferences "2 bedroom apartment in Austin under $2000 pet friendly"
        exCriteria).preferred_locations = exPreferences.preferred_locations
        ∨ (crm_learn exPreferences "2 bedroom apartment in Austin under $2000 pet friendly"
            exCriteria).preferred_locations
            = exPreferences.preferred_locations ++ [exCriteria.location])
    ∧ ((crm_learn exPreferences "2 bedroom apartment in Austin under $2000 pet friendly"
        exCriteria).preferred_bedrooms = exPreferences.preferred_bedrooms
        ∨ (crm_learn exPreferences "2 bedroom apartment in Austin under $2000 pet friendly"
            exCriteria).preferred_bedrooms
            = exPreferences.preferred_bedrooms ++ [exCriteria.bedrooms])
    ∧ (crm_learn exPreferences "2 bedroom apartment in Austin under $2000 pet friendly"
        exCriteria).budget_history
        = pyTakeLast (exPreferences.budget_history ++ [exCriteria.max_price]) 5
    ∧ (crm_learn exPreferences "2 bedroom apartment in Austin under $2000 pet friendly"
        exCriteria).budget_history.length ≤ 5
    ∧ (crm_learn exPreferences "2 bedroom apartment in Austin under $2000 pet friendly"
        exCriteria).typical_budget
        = some (Int.fdiv (crm_learn exPreferences
            "2 bedroom apartment in Austin under $2000 pet friendly"
            exCriteria).budget_history.sum
            ((crm_learn exPreferences "2 bedroom apartment in Austin under $2000 pet friendly"
              exCriteria).budget_history.length : Int)) :=
  C8_preference_invariants exPreferences
    "2 bedroom apartment in Austin under $2000 pet friendly" exCriteria
    (by decide) (by decide) (by decide) (by decide)

/-- C9 — divergence.  When the address-input step fails for the first of two
candidates, the inspector loop hits a bare `continue` without recording a
null image, so the second candidate's screenshot ends up at index 0 and the
screenshots list has length 1 instead of staying index-aligned as
`[None, url]`. -/
theorem C9_screenshot_misalignment :
    inspector_screenshots [InspectOutcome.typeFail, InspectOutcome.uploadOk "u2"]
      = [some "u2"]
    ∧ (inspector_screenshots [InspectOutcome.typeFail, InspectOutcome.uploadOk "u2"]).length
        ≠ 2
    ∧ inspector_screenshots [InspectOutcome.shotFail, InspectOutcome.uploadOk "u2"]
        = [none, some "u2"] := by
  decide

/-- C10 — the conversation-memory write at the end of `run_agent` is guarded
by a non-empty property list, so a completed search that returns zero
properties leaves the stored conversation memory unchanged. -/
theorem C10_zero_results_leave_memory (from_cache : Bool) (store : Option MemoryDoc)
    (memory : SearchRecord) (now : Nat) :
    run_agent_memory_update [] from_cache store memory now = store := by
  simp [run_agent_memory_update]

end PropertyScout
